import Mathlib

/-!
Shallow embedding of the Execution Monitoring & Control Client
(webui: `src/lib/api.ts`, `src/components/Dashboard.tsx`, `src/app/page.tsx`).

Conventions of the embedding:
* TypeScript `number` fields that only ever hold non-negative integers are
  modelled as `Nat`; the fractional `progress` field is modelled as `ℚ`.
* TypeScript optional fields (`x?:`) are modelled as `Option`.
* JavaScript truthiness of strings (`s || t` falls through on the empty
  string) is modelled explicitly by `jsOrString`.
* Stateful asynchronous code (the status poller, the health monitor) is
  modelled twice, in complementary styles: a script-driven event trace
  (`pollTrace`) and an event-step state machine (`pollerStep`,
  `monitorStep`).
-/

/-- Toast notifications emitted through react-hot-toast in `api.ts`:
either `toast.error msg` or `toast.success msg`. -/
inductive Toast
  | error (msg : String)
  | success (msg : String)
deriving DecidableEq

/-- Execution record (`src/types/api.ts`, interface `Execution`).
The optional `config` / `metadata` / `statistics` maps are not modelled:
no claim and no modelled code path reads them; the aggregator and poller
depend only on `status`. -/
structure Execution where
  execution_id : String
  status : String
  initial_goal : String
  max_depth : Nat
  total_tasks : Nat
  completed_tasks : Nat
  failed_tasks : Nat
  created_at : String
  updated_at : String
deriving DecidableEq

/-- Live-status projection of one execution
(`src/types/api.ts`, interface `StatusPolling`). -/
structure StatusPolling where
  execution_id : String
  status : String
  progress : ℚ
  current_task_id : Option String
  current_task_goal : Option String
  completed_tasks : Nat
  total_tasks : Nat
  estimated_remaining_seconds : Option ℚ
  last_updated : String
deriving DecidableEq

/-- System health snapshot (`src/types/api.ts`, interface `Health`). -/
structure Health where
  status : String
  version : String
  uptime_seconds : Nat
  active_executions : Nat
  storage_connected : Bool
  cache_size : Nat
  timestamp : String
deriving DecidableEq

/-- Dashboard statistics record
(`src/components/Dashboard.tsx`, interface `DashboardStats`). -/
structure DashboardStats where
  totalExecutions : Nat
  activeExecutions : Nat
  completedExecutions : Nat
  failedExecutions : Nat
  averageExecutionTime : Nat
  totalTokensUsed : Nat
  totalCost : Nat
deriving DecidableEq

/-- The all-zero `DashboardStats` literal: both the initial accumulator of
the `reduce` and the fallback value used when no execution list is loaded
(`Dashboard.tsx` lines 71-88). -/
def emptyStats : DashboardStats :=
  { totalExecutions := 0
    activeExecutions := 0
    completedExecutions := 0
    failedExecutions := 0
    averageExecutionTime := 0
    totalTokensUsed := 0
    totalCost := 0 }

/-- One step of the `reduce` in `Dashboard.tsx` (lines 57-70):
`acc.totalExecutions++` always, then exactly one of the three status
branches (`running` / `completed` / `failed`) increments its counter;
any other status falls through the if-chain. -/
def statsStep (acc : DashboardStats) (e : Execution) : DashboardStats :=
  if e.status == "running" then
    { acc with
        totalExecutions := acc.totalExecutions + 1
        activeExecutions := acc.activeExecutions + 1 }
  else if e.status == "completed" then
    { acc with
        totalExecutions := acc.totalExecutions + 1
        completedExecutions := acc.completedExecutions + 1 }
  else if e.status == "failed" then
    { acc with
        totalExecutions := acc.totalExecutions + 1
        failedExecutions := acc.failedExecutions + 1 }
  else
    { acc with totalExecutions := acc.totalExecutions + 1 }

/-- The dashboard aggregation (`Dashboard.tsx`, `stats`):
`executions.reduce(statsStep, emptyStats)`. -/
def computeStats (es : List Execution) : DashboardStats :=
  es.foldl statsStep emptyStats

theorem computeStats_foldl (es : List Execution) (acc : DashboardStats) :
    es.foldl statsStep acc =
      { totalExecutions := acc.totalExecutions + es.length
        activeExecutions :=
          acc.activeExecutions + es.countP (fun e => e.status == "running")
        completedExecutions :=
          acc.completedExecutions + es.countP (fun e => e.status == "completed")
        failedExecutions :=
          acc.failedExecutions + es.countP (fun e => e.status == "failed")
        averageExecutionTime := acc.averageExecutionTime
        totalTokensUsed := acc.totalTokensUsed
        totalCost := acc.totalCost } := by
  induction es generalizing acc with
  | nil => simp
  | cons e es ih =>
    rw [List.foldl_cons, ih]
    simp only [statsStep, List.countP_cons, List.length_cons]
    cases ha : (e.status == "running") <;>
      cases hb : (e.status == "completed") <;>
      cases hc : (e.status == "failed") <;>
      simp_all <;> omega

theorem computeStats_totalExecutions (es : List Execution) :
    (computeStats es).totalExecutions = es.length := by
  rw [computeStats, computeStats_foldl]; simp [emptyStats]

theorem computeStats_activeExecutions (es : List Execution) :
    (computeStats es).activeExecutions
      = es.countP (fun e => e.status == "running") := by
  rw [computeStats, computeStats_foldl]; simp [emptyStats]

theorem computeStats_completedExecutions (es : List Execution) :
    (computeStats es).completedExecutions
      = es.countP (fun e => e.status == "completed") := by
  rw [computeStats, computeStats_foldl]; simp [emptyStats]

theorem computeStats_failedExecutions (es : List Execution) :
    (computeStats es).failedExecutions
      = es.countP (fun e => e.status == "failed") := by
  rw [computeStats, computeStats_foldl]; simp [emptyStats]

theorem countP_three_eq (es : List Execution) :
    es.countP (fun e => e.status == "running")
      + es.countP (fun e => e.status == "completed")
      + es.countP (fun e => e.status == "failed")
      = es.countP (fun e =>
          e.status == "running" || e.status == "completed"
            || e.status == "failed") := by
  induction es with
  | nil => rfl
  | cons e es ih =>
    simp only [List.countP_cons]
    cases ha : (e.status == "running") <;>
      cases hb : (e.status == "completed") <;>
      cases hc : (e.status == "failed") <;>
      simp_all <;> omega

/-- A classified transport failure, as seen by the axios response
interceptor in `api.ts` (lines 48-68): `error.response?.status`,
`error.response?.data?.detail`, and `error.message`.  `none` models an
absent field (a network failure has no response at all). -/
structure HttpError where
  responseStatus : Option Nat
  responseDetail : Option String
  message : Option String
deriving DecidableEq

/-- JavaScript string fallback `a || b`: the empty string is falsy, so it
falls through to `b`, as does an absent `a`. -/
def jsOrString : Option String → String → String
  | some s, b => if s = "" then b else s
  | none, b => b

/-- The interceptor's `message` expression (`api.ts` line 50):
`error.response?.data?.detail || error.message || an error occurred`. -/
def errorMessage (e : HttpError) : String :=
  jsOrString e.responseDetail (jsOrString e.message "An error occurred")

/-- The response interceptor's `handleError` (`api.ts` lines 49-65):
the if-chain on `error.response?.status` emits exactly one
`toast.error`.  In JavaScript `undefined >= 500` is false, which
`Option.getD 0` reproduces for an absent status. -/
def handleError (e : HttpError) : List Toast :=
  if e.responseStatus = some 401 then
    [Toast.error "Authentication required"]
  else if e.responseStatus = some 403 then
    [Toast.error "Access forbidden"]
  else if e.responseStatus = some 404 then
    [Toast.error "Resource not found"]
  else if 500 ≤ e.responseStatus.getD 0 then
    [Toast.error "Server error. Please try again later."]
  else
    [Toast.error (errorMessage e)]

/-- Error taxonomy named by the spec (§4.1, §7). -/
inductive ApiError
  | AuthRequired
  | Forbidden
  | NotFound
  | ServerError
  | RequestFailed (msg : String)
deriving DecidableEq

/-- Modelled from the spec (§4.1 error classification), as the
spec-side of the refinement claim about the interceptor: 401 →
AuthRequired, 403 → Forbidden, 404 → NotFound, ≥ 500 → ServerError,
any other status or no response → RequestFailed with the
backend-supplied detail if present, else a generic message. -/
def classifyError (e : HttpError) : ApiError :=
  match e.responseStatus with
  | none => ApiError.RequestFailed (errorMessage e)
  | some n =>
    if n = 401 then ApiError.AuthRequired
    else if n = 403 then ApiError.Forbidden
    else if n = 404 then ApiError.NotFound
    else if 500 ≤ n then ApiError.ServerError
    else ApiError.RequestFailed (errorMessage e)

/-- The user-visible text the interceptor shows for each classified
error (the literals of `api.ts` lines 53-61). -/
def toastTextOf : ApiError → String
  | ApiError.AuthRequired => "Authentication required"
  | ApiError.Forbidden => "Access forbidden"
  | ApiError.NotFound => "Resource not found"
  | ApiError.ServerError => "Server error. Please try again later."
  | ApiError.RequestFailed m => m

theorem handleError_eq_classify (e : HttpError) :
    handleError e = [Toast.error (toastTextOf (classifyError e))] := by
  unfold handleError classifyError
  cases h : e.responseStatus with
  | none => simp [toastTextOf, h]
  | some n =>
    simp only [h, Option.getD_some, Option.some.injEq]
    split_ifs <;> simp_all [toastTextOf]

/-- The sixteen public operations of `ApiClient` (`api.ts` lines 72-166). -/
inductive ApiOp
  | getHealth
  | createExecution
  | getExecutions
  | getExecution
  | getExecutionStatus
  | getExecutionMetrics
  | getExecutionData
  | deleteExecution
  | getCheckpoints
  | getCheckpoint
  | restoreCheckpoint
  | getTaskTraces
  | getLMTraces
  | updateConfig
  | getProfiles
  | getProfile
deriving DecidableEq

/-- The success toast each operation emits after its awaited request
resolves, read off the method bodies in `api.ts`: the four mutating
operations call `toast.success` with the listed literal; every other
method body contains no toast call. -/
def successToast : ApiOp → Option String
  | ApiOp.createExecution => some "Execution started successfully"
  | ApiOp.deleteExecution => some "Execution deleted successfully"
  | ApiOp.restoreCheckpoint => some "Checkpoint restored successfully"
  | ApiOp.updateConfig => some "Configuration updated successfully"
  | ApiOp.getHealth => none
  | ApiOp.getExecutions => none
  | ApiOp.getExecution => none
  | ApiOp.getExecutionStatus => none
  | ApiOp.getExecutionMetrics => none
  | ApiOp.getExecutionData => none
  | ApiOp.getCheckpoints => none
  | ApiOp.getCheckpoint => none
  | ApiOp.getTaskTraces => none
  | ApiOp.getLMTraces => none
  | ApiOp.getProfiles => none
  | ApiOp.getProfile => none

/-- The four operations that mutate backend state. -/
def mutatingOps : List ApiOp :=
  [ApiOp.createExecution, ApiOp.deleteExecution,
   ApiOp.restoreCheckpoint, ApiOp.updateConfig]

/-- Toasts emitted by one `ApiClient` call: a rejected request passes
through the response interceptor (`handleError`), a resolved request
emits the operation's success toast if it has one.  No method body in
`api.ts` emits any other toast, and no other file in the repository
calls `toast` at all. -/
def runOp (op : ApiOp) (result : Except HttpError Unit) : List Toast :=
  match result with
  | Except.error e => handleError e
  | Except.ok _ =>
    match successToast op with
    | some m => [Toast.success m]
    | none => []

/-- Counts `toast.success` calls in an emitted toast list. -/
def countSuccessToasts (ts : List Toast) : Nat :=
  ts.countP fun t => match t with
    | Toast.success _ => true
    | Toast.error _ => false

/-- Counts `toast.error` calls in an emitted toast list. -/
def countErrorToasts (ts : List Toast) : Nat :=
  ts.countP fun t => match t with
    | Toast.success _ => false
    | Toast.error _ => true

/-- Terminal-status check of the poller (`api.ts` line 180):
`['completed', 'failed', 'cancelled'].includes(status.status)`. -/
def isTerminal (status : String) : Bool :=
  ["completed", "failed", "cancelled"].contains status

/-- Default polling interval of `pollExecutionStatus`
(`api.ts` line 172: `interval: number = 2000`). -/
def defaultPollInterval : Nat := 2000

/-- Observable events of one `pollExecutionStatus` run. -/
inductive PollEvent
  | fetchIssued
  | update (s : StatusPolling)
  | toastShown (t : Toast)
  | timerSet (delayMs : Nat)
  | logError
deriving DecidableEq

/-- Script-driven trace of the recursive `poll` closure
(`api.ts` lines 174-190).  The script lists, in order, the outcome of
each `getExecutionStatus` fetch the poller issues.  Per script entry:
the fetch is issued; on resolution the snapshot is delivered via
`onUpdate`, then either polling stops (terminal status) or
`setTimeout(poll, interval)` schedules the next fetch; on rejection the
interceptor's toast fires inside the fetch, the catch block runs
`console.error`, and — the catch block containing no `setTimeout` —
nothing further happens, so the rest of the script is never consumed. -/
def pollTrace (interval : Nat) :
    List (Except HttpError StatusPolling) → List PollEvent
  | [] => []
  | Except.ok s :: rest =>
    if isTerminal s.status then
      [PollEvent.fetchIssued, PollEvent.update s]
    else
      PollEvent.fetchIssued :: PollEvent.update s
        :: PollEvent.timerSet interval :: pollTrace interval rest
  | Except.error e :: _ =>
    PollEvent.fetchIssued
      :: (handleError e).map PollEvent.toastShown ++ [PollEvent.logError]

/-- State of one poller instance, for the interleaving-sensitive
properties: how many fetches are issued but unresolved, and how many
`setTimeout` timers are pending. -/
structure PollerState where
  outstanding : Nat
  pendingTimers : Nat
deriving DecidableEq

/-- Environment events acting on a running poller. -/
inductive PollerEvent
  | resolveOk (s : StatusPolling)
  | resolveErr (e : HttpError)
  | timerFire
  | cancelInvoked
deriving DecidableEq

/-- Event step of the poller, read off `api.ts` lines 174-196:
a fetch resolving non-terminal calls `setTimeout` (one new pending
timer); resolving terminal or rejecting schedules nothing; a pending
timer firing runs `poll`, which issues a new fetch; the returned
cancellation handle (lines 193-196) has an empty body, so
`cancelInvoked` changes nothing.  Events that have no sender in the
given state (a resolution with no outstanding fetch, a timer firing
with no pending timer) leave the state unchanged. -/
def pollerStep (st : PollerState) (ev : PollerEvent) : PollerState :=
  match ev with
  | PollerEvent.resolveOk s =>
    if st.outstanding = 0 then st
    else if isTerminal s.status then
      { outstanding := st.outstanding - 1, pendingTimers := st.pendingTimers }
    else
      { outstanding := st.outstanding - 1, pendingTimers := st.pendingTimers + 1 }
  | PollerEvent.resolveErr _ =>
    if st.outstanding = 0 then st
    else { st with outstanding := st.outstanding - 1 }
  | PollerEvent.timerFire =>
    if st.pendingTimers = 0 then st
    else { outstanding := st.outstanding + 1, pendingTimers := st.pendingTimers - 1 }
  | PollerEvent.cancelInvoked => st

/-- State right after `pollExecutionStatus` returns: the initial
`poll()` call (`api.ts` line 190) has issued one fetch; no timer yet. -/
def pollerStart : PollerState :=
  { outstanding := 1, pendingTimers := 0 }

/-- A poller run: the start state driven by a list of events. -/
def pollerRun (evs : List PollerEvent) : PollerState :=
  evs.foldl pollerStep pollerStart

theorem pollerStep_inv (st : PollerState) (ev : PollerEvent)
    (h : st.outstanding + st.pendingTimers ≤ 1) :
    (pollerStep st ev).outstanding + (pollerStep st ev).pendingTimers ≤ 1 := by
  cases ev <;> simp only [pollerStep] <;> (try split_ifs) <;> simp_all <;> omega

theorem pollerRun_foldl_inv (evs : List PollerEvent) (st : PollerState)
    (h : st.outstanding + st.pendingTimers ≤ 1) :
    (evs.foldl pollerStep st).outstanding
      + (evs.foldl pollerStep st).pendingTimers ≤ 1 := by
  induction evs generalizing st with
  | nil => exact h
  | cons ev evs ih =>
    rw [List.foldl_cons]
    exact ih _ (pollerStep_inv st ev h)

/-- Health-refresh cadence of the `Home` page
(`page.tsx` line 37: `setInterval(fetchHealth, 30000)`). -/
def healthRefreshIntervalMs : Nat := 30000

/-- State of the health monitor of `page.tsx` (lines 26-40): the latest
`Health` snapshot held in the `health` state variable, and whether the
interval handle is still installed (not yet cleared by the effect
cleanup). -/
structure MonitorState where
  snapshot : Option Health
  active : Bool
deriving DecidableEq

/-- Environment events acting on the health monitor: an interval firing
whose `fetchHealth` resolves (`Except.ok`) or rejects (`Except.error`),
and the effect cleanup `clearInterval`. -/
inductive MonitorEvent
  | tick (r : Except HttpError Health)
  | deactivate

/-- Event step of the health monitor, read off `fetchHealth`
(`page.tsx` lines 27-34) and the effect cleanup (line 39): a successful
refresh replaces the snapshot via `setHealth`; a failed refresh only
runs `console.error`, leaving the snapshot as it was and the interval
installed; `deactivate` clears the interval, after which ticks no
longer occur (modelled: they have no effect). -/
def monitorStep (st : MonitorState) (ev : MonitorEvent) : MonitorState :=
  match ev with
  | MonitorEvent.tick r =>
    if st.active then
      match r with
      | Except.ok h => { st with snapshot := some h }
      | Except.error _ => st
    else st
  | MonitorEvent.deactivate => { st with active := false }

/-- Activation of the monitor (`page.tsx` lines 36-37): the effect body
calls `fetchHealth()` immediately — before any interval elapses — with
result `r`, then installs the interval. -/
def monitorActivate (r : Except HttpError Health) : MonitorState :=
  monitorStep { snapshot := none, active := true } (MonitorEvent.tick r)

theorem monitor_frozen (evs : List MonitorEvent) (st : MonitorState)
    (h : st.active = false) :
    evs.foldl monitorStep st = st := by
  induction evs generalizing st with
  | nil => rfl
  | cons ev evs ih =>
    rw [List.foldl_cons]
    have hstep : monitorStep st ev = st := by
      cases ev with
      | tick r => simp [monitorStep, h]
      | deactivate => cases st; simp_all [monitorStep]
    rw [hstep]
    exact ih st h

/-- A non-terminal status snapshot (status `running`). -/
def sampleRunning : StatusPolling :=
  { execution_id := "exec-1"
    status := "running"
    progress := 0
    current_task_id := none
    current_task_goal := none
    completed_tasks := 0
    total_tasks := 2
    estimated_remaining_seconds := none
    last_updated := "2025-01-01T00:00:00Z" }

/-- A terminal status snapshot (status `completed`). -/
def sampleCompleted : StatusPolling :=
  { sampleRunning with status := "completed", progress := 1, completed_tasks := 2 }

/-- A network failure: no response, axios message `Network Error`. -/
def sampleNetworkFailure : HttpError :=
  { responseStatus := none
    responseDetail := none
    message := some "Network Error" }

/-- A 404 response carrying a backend detail message. -/
def sampleNotFound : HttpError :=
  { responseStatus := some 404
    responseDetail := some "Execution not found"
    message := some "Request failed with status code 404" }

/-- An execution record with status `running`. -/
def execRunning : Execution :=
  { execution_id := "exec-1"
    status := "running"
    initial_goal := "Summarize this document"
    max_depth := 2
    total_tasks := 3
    completed_tasks := 1
    failed_tasks := 0
    created_at := "2025-01-01T00:00:00Z"
    updated_at := "2025-01-01T00:01:00Z" }

/-- An execution record with status `pending`. -/
def execPending : Execution :=
  { execRunning with execution_id := "exec-2", status := "pending" }

/-- Claim C1 is false on the code at this input: the first fetch of the
poller rejects (a network failure), the script then offers a `running`
snapshot, yet the trace shows one single fetch, the interceptor's toast
and the `console.error` of the catch block — and no `setTimeout`, so no
next poll is ever scheduled, contrary to the claim that polling
continues as if the failure had not occurred. -/
theorem C1_counterexample :
    pollTrace defaultPollInterval
        [Except.error sampleNetworkFailure, Except.ok sampleRunning]
      = [PollEvent.fetchIssued,
         PollEvent.toastShown (Toast.error "Network Error"),
         PollEvent.logError] ∧
    (pollTrace defaultPollInterval
        [Except.error sampleNetworkFailure, Except.ok sampleRunning]).count
        PollEvent.fetchIssued = 1 ∧
    PollEvent.timerSet defaultPollInterval ∉
      pollTrace defaultPollInterval
        [Except.error sampleNetworkFailure, Except.ok sampleRunning] := by
  refine ⟨?_, ?_, ?_⟩ <;> decide

/-- Claim C1 (amended): for every poller started by
`pollExecutionStatus`, a failed status fetch is surfaced via the
Transport Adapter's notification path — the rejected request emits
exactly one error toast through the response interceptor — and is
logged, but it terminates polling: the catch block schedules nothing,
so no further fetch is issued and no timer is set. -/
theorem C1_fetch_failure_stops (interval : Nat) (e : HttpError)
    (rest : List (Except HttpError StatusPolling)) :
    pollTrace interval (Except.error e :: rest)
      = PollEvent.fetchIssued
          :: (handleError e).map PollEvent.toastShown ++ [PollEvent.logError] ∧
    countErrorToasts (handleError e) = 1 ∧
    (∀ d, PollEvent.timerSet d ∉ pollTrace interval (Except.error e :: rest)) ∧
    (pollTrace interval (Except.error e :: rest)).count PollEvent.fetchIssued
      = 1 := by
  refine ⟨rfl, ?_, ?_, ?_⟩
  · rw [handleError_eq_classify]; rfl
  · intro d
    simp [pollTrace, handleError_eq_classify]
  · simp [pollTrace, handleError_eq_classify, List.count_cons]

/-- Claim C2 fails on the code: the cancellation handle returned by
`pollExecutionStatus` has an empty body (`api.ts` lines 193-196, with a
comment admitting the timeout id would have to be tracked and cleared),
so invoking it changes nothing.  After a `running` snapshot has
scheduled the next poll, cancelling leaves that timer pending, and when
it fires the next fetch is still issued.  Only the incidental parts of
the claim hold: the handle never throws and repeated invocations are
no-ops, because it is the identity. -/
theorem C2_cancel_handle_noop :
    (∀ st : PollerState, pollerStep st PollerEvent.cancelInvoked = st) ∧
    (pollerRun [PollerEvent.resolveOk sampleRunning,
                PollerEvent.cancelInvoked]).pendingTimers = 1 ∧
    (pollerRun [PollerEvent.resolveOk sampleRunning,
                PollerEvent.cancelInvoked,
                PollerEvent.timerFire]).outstanding = 1 := by
  refine ⟨fun st => rfl, ?_, ?_⟩ <;> decide

/-- Claim C3: `pollExecutionStatus` issues one fetch immediately (the
trace of any non-empty script starts with a fetch, before any timer),
delivers every fetched snapshot to the sink, stops after a snapshot
whose status is terminal — the terminal set being exactly
completed/failed/cancelled — and after a non-terminal snapshot
schedules the next fetch after the fixed interval, whose default is
2000 ms. -/
theorem C3_poll_protocol (interval : Nat) (s t : StatusPolling)
    (rest rest2 : List (Except HttpError StatusPolling)) :
    (∀ script : List (Except HttpError StatusPolling), script ≠ [] →
        (pollTrace interval script).head? = some PollEvent.fetchIssued) ∧
    (isTerminal s.status = true →
        pollTrace interval (Except.ok s :: rest)
          = [PollEvent.fetchIssued, PollEvent.update s]) ∧
    (isTerminal t.status = false →
        pollTrace interval (Except.ok t :: rest2)
          = PollEvent.fetchIssued :: PollEvent.update t
              :: PollEvent.timerSet interval :: pollTrace interval rest2) ∧
    (∀ status : String, isTerminal status = true ↔
        (status = "completed" ∨ status = "failed" ∨ status = "cancelled")) ∧
    defaultPollInterval = 2000 := by
  refine ⟨?_, ?_, ?_, ?_, rfl⟩
  · intro script hne
    cases script with
    | nil => exact absurd rfl hne
    | cons r rest3 =>
      cases r with
      | ok s0 =>
        simp only [pollTrace]
        split <;> rfl
      | error e0 => rfl
  · intro hterm; simp [pollTrace, hterm]
  · intro hnt; simp [pollTrace, hnt]
  · intro status
    simp [isTerminal]

/-- Witness for C3 at concrete inputs: a `running` snapshot is
delivered and schedules the next fetch after 2000 ms; a `completed`
snapshot is delivered and ends the trace. -/
theorem C3_poll_protocol_witness :
    pollTrace 2000 [Except.ok sampleCompleted]
      = [PollEvent.fetchIssued, PollEvent.update sampleCompleted] ∧
    pollTrace 2000 [Except.ok sampleRunning, Except.ok sampleCompleted]
      = PollEvent.fetchIssued :: PollEvent.update sampleRunning
          :: PollEvent.timerSet 2000 :: pollTrace 2000 [Except.ok sampleCompleted] ∧
    (pollTrace 2000 [Except.ok sampleRunning, Except.ok sampleCompleted]).head?
      = some PollEvent.fetchIssued ∧
    isTerminal "failed" = true := by
  have h := C3_poll_protocol 2000 sampleCompleted sampleRunning []
    [Except.ok sampleCompleted]
  exact ⟨h.2.1 (by decide), h.2.2.1 (by decide),
    h.1 _ (List.cons_ne_nil _ _), (h.2.2.2.1 "failed").mpr (by decide)⟩

/-- Claim C4: the dashboard aggregation is a pure fold that sets
`totalExecutions` to the input length, counts `running` / `completed` /
`failed` records into exactly one counter each (any other status counts
toward the total only, as the per-step sum identity shows), and
produces the all-zero record on the empty input.  Purity and
non-mutation of the input hold by construction: `computeStats` is a
function of the list alone. -/
theorem C4_aggregation (es : List Execution) (acc : DashboardStats)
    (e : Execution) :
    (computeStats es).totalExecutions = es.length ∧
    (computeStats es).activeExecutions
      = es.countP (fun x => x.status == "running") ∧
    (computeStats es).completedExecutions
      = es.countP (fun x => x.status == "completed") ∧
    (computeStats es).failedExecutions
      = es.countP (fun x => x.status == "failed") ∧
    computeStats [] = emptyStats ∧
    emptyStats = ⟨0, 0, 0, 0, 0, 0, 0⟩ ∧
    (statsStep acc e).totalExecutions = acc.totalExecutions + 1 ∧
    (statsStep acc e).activeExecutions + (statsStep acc e).completedExecutions
        + (statsStep acc e).failedExecutions
      = acc.activeExecutions + acc.completedExecutions + acc.failedExecutions
        + (if (e.status == "running" || e.status == "completed"
              || e.status == "failed") then 1 else 0) := by
  refine ⟨computeStats_totalExecutions es, computeStats_activeExecutions es,
    computeStats_completedExecutions es, computeStats_failedExecutions es,
    rfl, rfl, ?_, ?_⟩ <;>
  · simp only [statsStep]
    cases ha : (e.status == "running") <;>
      cases hb : (e.status == "completed") <;>
      cases hc : (e.status == "failed") <;>
      simp_all <;> omega

theorem status_three_iff (s : String)
    (hs : s = "pending" ∨ s = "running" ∨ s = "completed" ∨ s = "failed"
          ∨ s = "cancelled") :
    ((s == "running" || s == "completed" || s == "failed") = true)
      ↔ (s ≠ "pending" ∧ s ≠ "cancelled") := by
  rcases hs with h | h | h | h | h <;> subst h <;> decide

/-- Claim C6: over executions whose statuses lie in the five-element
status set, the three dashboard counters sum to at most the total, with
equality exactly when no record is `pending` or `cancelled`;
`totalExecutions` is the length and the empty input yields the all-zero
record. -/
theorem C6_aggregate_bound (es : List Execution)
    (h : ∀ e ∈ es, e.status = "pending" ∨ e.status = "running"
          ∨ e.status = "completed" ∨ e.status = "failed"
          ∨ e.status = "cancelled") :
    (computeStats es).activeExecutions + (computeStats es).completedExecutions
        + (computeStats es).failedExecutions
      ≤ (computeStats es).totalExecutions ∧
    ((computeStats es).activeExecutions + (computeStats es).completedExecutions
          + (computeStats es).failedExecutions
        = (computeStats es).totalExecutions
      ↔ ∀ e ∈ es, e.status ≠ "pending" ∧ e.status ≠ "cancelled") ∧
    (computeStats es).totalExecutions = es.length ∧
    computeStats [] = emptyStats := by
  rw [computeStats_activeExecutions, computeStats_completedExecutions,
    computeStats_failedExecutions, computeStats_totalExecutions,
    countP_three_eq]
  refine ⟨List.countP_le_length _, ?_, rfl, rfl⟩
  rw [List.countP_eq_length]
  constructor
  · intro hp e he
    exact (status_three_iff e.status (h e he)).mp (hp e he)
  · intro hnp e he
    exact (status_three_iff e.status (h e he)).mpr (hnp e he)

/-- Witness for C6 on a concrete list with one `running` and one
`pending` record: the counter sum is strictly below the total of 2. -/
theorem C6_aggregate_bound_witness :
    (computeStats [execRunning, execPending]).activeExecutions
        + (computeStats [execRunning, execPending]).completedExecutions
        + (computeStats [execRunning, execPending]).failedExecutions
      ≤ (computeStats [execRunning, execPending]).totalExecutions ∧
    (computeStats [execRunning, execPending]).totalExecutions = 2 :=
  ⟨(C6_aggregate_bound [execRunning, execPending] (by decide)).1, by decide⟩

/-- Claim C7: of the sixteen `ApiClient` operations, exactly the four
mutating ones (`createExecution`, `deleteExecution`,
`restoreCheckpoint`, `updateConfig`) emit one success toast on a
successful call, and no read-only operation emits any; a successful
call emits no error toast either. -/
theorem C7_success_toasts (op : ApiOp) :
    mutatingOps = [ApiOp.createExecution, ApiOp.deleteExecution,
      ApiOp.restoreCheckpoint, ApiOp.updateConfig] ∧
    countSuccessToasts (runOp op (Except.ok ()))
      = (if op ∈ mutatingOps then 1 else 0) ∧
    countErrorToasts (runOp op (Except.ok ())) = 0 := by
  cases op <;> decide

/-- Claim C8: the health monitor of the `Home` page fetches a snapshot
immediately on activation, refreshes on a fixed 30000 ms cadence, keeps
the prior snapshot (and stays active) when a refresh fails, and after
deactivation — which clears the interval — no event changes the state
again. -/
theorem C8_health_monitor (st : MonitorState) (h : Health) (e : HttpError)
    (evs : List MonitorEvent) :
    healthRefreshIntervalMs = 30000 ∧
    (monitorActivate (Except.ok h)).snapshot = some h ∧
    (monitorActivate (Except.ok h)).active = true ∧
    (monitorStep st (MonitorEvent.tick (Except.error e))).snapshot
      = st.snapshot ∧
    (monitorStep st (MonitorEvent.tick (Except.error e))).active = st.active ∧
    (monitorStep st MonitorEvent.deactivate).active = false ∧
    evs.foldl monitorStep (monitorStep st MonitorEvent.deactivate)
      = monitorStep st MonitorEvent.deactivate := by
  refine ⟨rfl, rfl, rfl, ?_, ?_, rfl, monitor_frozen evs _ rfl⟩ <;>
    simp [monitorStep]

/-- Claim C9: per poller instance, at most one status fetch is
outstanding at any time — along any event interleaving, the number of
unresolved fetches plus pending timers never exceeds one, so a new
fetch (which only a timer firing can issue) cannot start while a
previous fetch is unresolved: while a fetch is in flight there is no
pending timer at all, the timer being set only after the fetch
resolves. -/
theorem C9_no_overlap (evs : List PollerEvent) :
    (pollerRun evs).outstanding + (pollerRun evs).pendingTimers ≤ 1 ∧
    (pollerRun evs).outstanding ≤ 1 ∧
    (1 ≤ (pollerRun evs).outstanding → (pollerRun evs).pendingTimers = 0) := by
  have h := pollerRun_foldl_inv evs pollerStart (by decide)
  simp only [pollerRun] at *
  exact ⟨h, by omega, fun _ => by omega⟩

/-- Witness for C9: after a `running` snapshot resolves and the
scheduled timer fires, one fetch is outstanding and no timer is
pending. -/
theorem C9_no_overlap_witness :
    (pollerRun [PollerEvent.resolveOk sampleRunning,
        PollerEvent.timerFire]).pendingTimers = 0 :=
  (C9_no_overlap [PollerEvent.resolveOk sampleRunning,
      PollerEvent.timerFire]).2.2 (by decide)

/-- Claim C10 (implicit): `DashboardStats` carries
`averageExecutionTime`, `totalTokensUsed` and `totalCost` beyond the
four counters the spec describes, and the aggregation leaves all three
at zero on every input — no branch of the fold step touches them. -/
theorem C10_unused_fields (es : List Execution) (acc : DashboardStats)
    (e : Execution) :
    (computeStats es).averageExecutionTime = 0 ∧
    (computeStats es).totalTokensUsed = 0 ∧
    (computeStats es).totalCost = 0 ∧
    (statsStep acc e).averageExecutionTime = acc.averageExecutionTime ∧
    (statsStep acc e).totalTokensUsed = acc.totalTokensUsed ∧
    (statsStep acc e).totalCost = acc.totalCost := by
  refine ⟨?_, ?_, ?_, ?_, ?_, ?_⟩ <;>
    first
      | (rw [computeStats, computeStats_foldl]; simp [emptyStats])
      | (simp only [statsStep]; split_ifs <;> rfl)

/-- Claim C5: on every classified failure the interceptor emits exactly
one error toast (and no success toast) — via `runOp`, this is the only
path on which any operation emits an error toast — and the
classification matches the spec taxonomy: 401 → AuthRequired,
403 → Forbidden, 404 → NotFound, status ≥ 500 → ServerError, any other
4xx or an absent response → RequestFailed carrying the backend detail
message when present and non-empty, else a generic message. -/
theorem C5_error_classification (e : HttpError) (op : ApiOp) :
    handleError e = [Toast.error (toastTextOf (classifyError e))] ∧
    countErrorToasts (handleError e) = 1 ∧
    countSuccessToasts (handleError e) = 0 ∧
    (e.responseStatus = some 401 → classifyError e = ApiError.AuthRequired) ∧
    (e.responseStatus = some 403 → classifyError e = ApiError.Forbidden) ∧
    (e.responseStatus = some 404 → classifyError e = ApiError.NotFound) ∧
    (∀ n, e.responseStatus = some n → 500 ≤ n →
        classifyError e = ApiError.ServerError) ∧
    (∀ n, e.responseStatus = some n → n ≠ 401 → n ≠ 403 → n ≠ 404 →
        n < 500 → classifyError e = ApiError.RequestFailed (errorMessage e)) ∧
    (e.responseStatus = none →
        classifyError e = ApiError.RequestFailed (errorMessage e)) ∧
    (∀ d, e.responseDetail = some d → d ≠ "" → errorMessage e = d) ∧
    (e.responseDetail = none → e.message = none →
        errorMessage e = "An error occurred") ∧
    runOp op (Except.error e) = handleError e := by
  refine ⟨handleError_eq_classify e, ?_, ?_, ?_, ?_, ?_, ?_, ?_, ?_, ?_, ?_,
    rfl⟩
  · rw [handleError_eq_classify]; rfl
  · rw [handleError_eq_classify]; rfl
  · intro h; simp [classifyError, h]
  · intro h; simp [classifyError, h]
  · intro h; simp [classifyError, h]
  · intro n h hn
    simp only [classifyError, h]
    split_ifs <;> first | rfl | (exfalso; omega)
  · intro n h h1 h3 h4 h5
    simp only [classifyError, h]
    split_ifs <;> first | rfl | (exfalso; omega)
  · intro h; simp [classifyError, h]
  · intro d hd hne
    simp [errorMessage, jsOrString, hd, hne]
  · intro hd hm
    simp [errorMessage, jsOrString, hd, hm]

/-- Witness for C5 at concrete failures: a 404 carrying a backend
detail classifies as NotFound and toasts the fixed text; a network
failure with no response classifies as RequestFailed with the axios
message. -/
theorem C5_error_classification_witness :
    classifyError sampleNotFound = ApiError.NotFound ∧
    handleError sampleNotFound = [Toast.error "Resource not found"] ∧
    classifyError sampleNetworkFailure
      = ApiError.RequestFailed "Network Error" := by
  obtain ⟨h1, h2, h3, h4, h5, h6, h7, h8, h9, h10, h11, h12⟩ :=
    C5_error_classification sampleNotFound ApiOp.getExecutionStatus
  obtain ⟨g1, g2, g3, g4, g5, g6, g7, g8, g9, g10, g11, g12⟩ :=
    C5_error_classification sampleNetworkFailure ApiOp.getHealth
  refine ⟨h6 rfl, ?_, ?_⟩
  · rw [h1, h6 rfl]; rfl
  · rw [g9 rfl]; decide

/-- Witness for the amended C1 at a concrete network failure: exactly
one error toast, and no timer is set. -/
theorem C1_fetch_failure_stops_witness :
    countErrorToasts (handleError sampleNetworkFailure) = 1 ∧
    PollEvent.timerSet 2000 ∉
      pollTrace 2000 [Except.error sampleNetworkFailure] :=
  ⟨(C1_fetch_failure_stops 2000 sampleNetworkFailure []).2.1,
   (C1_fetch_failure_stops 2000 sampleNetworkFailure []).2.2.1 2000⟩
